import Mathlib

/-!
Shallow embedding of the credential-authentication core of
`go_pet_auth_grpc` (`internal/services/auth/auth.go` together with the
sentinel errors of `internal/storage/storage.go`).

Go `error` values are modelled by the inductive `GoErr`; the sentinels
created with `errors.New` in the repository become dedicated constructors,
a wrapping `fmt.Errorf("%s: %w", op, err)` becomes `GoErr.wrapped op err`,
and any other error value is `GoErr.otherErr msg`.  Go compares sentinel
errors with `==` (value identity), which structural equality on `GoErr`
reproduces: a wrapped sentinel or a fresh error with the same message is a
different value from the sentinel itself.

The external collaborators (User Directory, Application Registry, bcrypt,
the jwt signer, the clock) are gathered in an `Env`: each field records the
outcome this particular execution observes from that collaborator.  The two
operations return, besides their Go result, the list of external calls they
performed, so that claims of the form "no token is issued" or "no write is
made" are about the code and not about an informal reading of it.
-/

namespace AuthGrpc

/-- Go error values of the auth service.  The first four constructors are the
sentinel values declared in `internal/storage/storage.go` and
`internal/services/auth/auth.go`; `wrapped` is the result of
`fmt.Errorf("%s: %w", op, err)`; `otherErr` stands for any other error value
(a storage-driver error, a bcrypt failure, an `errors.New` made elsewhere). -/
inductive GoErr where
  | errUserExists
  | errUserNotFound
  | errAppNotFound
  | errInvalidCredentials
  | otherErr (msg : String)
  | wrapped (op : String) (cause : GoErr)
deriving DecidableEq

/-- Go `errors.Is`: unwraps `%w` chains while comparing by value. -/
def errIs : GoErr → GoErr → Bool
  | GoErr.wrapped op c, t => (GoErr.wrapped op c == t) || errIs c t
  | e, t => e == t

/-- `models.User` (read through the `UserStorage` interface): numeric id,
email and the opaque bcrypt hash, modelled as a byte list. -/
structure User where
  id : Int
  email : String
  passHash : List Nat
deriving DecidableEq

/-- Modelled from the spec: `models.App` is not under src/; per the spec an
Application is an integer identifier plus the metadata the token issuer
needs (a signing secret). -/
structure App where
  id : Int
  secret : String
deriving DecidableEq

/-- Modelled from the spec: the claim set of an issued token carries user
identity, application identifier, issued-at and expiry. -/
structure Claims where
  uid : Int
  appID : Int
  iat : Nat
  exp : Nat
deriving DecidableEq

/-- One external call performed by the core during a request. -/
inductive Event where
  | generateCalled (pass : String)
  | saveUserCalled (email : String) (hash : List Nat)
  | getUserCalled (email : String)
  | compareCalled (hash : List Nat) (pass : String)
  | getAppCalled (appID : Int)
  | signCalled (claims : Claims)
deriving DecidableEq

/-- The collaborators of one request, resolved to the outcomes this
execution observes: `UserStorage.SaveUser` / `UserStorage.GetUser`,
`AppProvider.GetAppInfo`, `bcrypt.GenerateFromPassword` (its randomness is
part of the recorded outcome), `bcrypt.CompareHashAndPassword` (`.ok ()` on
match, an error on mismatch, as in Go), the jwt signing primitive and the
clock read used as issue time. -/
structure Env where
  bcryptGenerate : String → Except GoErr (List Nat)
  bcryptCompare : List Nat → String → Except GoErr Unit
  saveUser : String → List Nat → Except GoErr Int
  getUser : String → Except GoErr User
  getAppInfo : Int → Except GoErr App
  sign : Claims → Except GoErr String
  now : Nat

/-- The `Auth` service object.  Its collaborator handles live in `Env`;
the only datum it carries that the embedded operations read is the token
time-to-live fixed at construction. -/
structure Auth where
  tokenTTL : Nat
deriving DecidableEq

/-- `auth.New`: the constructor stores the token time-to-live for the
lifetime of the `Auth` instance. -/
def New (tokenTTL : Nat) : Auth :=
  { tokenTTL := tokenTTL }

/-- Modelled from the spec: `auth_grpc/internal/lib/jwt.NewToken` is not
under src/; per the spec it constructs claims from user identity,
application identifier, issue time, and issue time plus the configured
time-to-live, and invokes the external signing primitive; a signing failure
is returned as an error.  `mkClaims` is the claim set it constructs. -/
def mkClaims (env : Env) (user : User) (app : App) (ttl : Nat) : Claims :=
  { uid := user.id, appID := app.id, iat := env.now, exp := env.now + ttl }

/-- Modelled from the spec (with `mkClaims`): the body of `jwt.NewToken`. -/
def NewToken (env : Env) (user : User) (app : App) (ttl : Nat) :
    Except GoErr String × List Event :=
  let claims : Claims := mkClaims env user app ttl
  (env.sign claims, [Event.signCalled claims])

/-- `Auth.RegisterNewUser`: hash the password with bcrypt, then save
(email, hash) through the User Directory; every error is wrapped with the
operation name. -/
def RegisterNewUser (env : Env) (email pass : String) :
    Except GoErr Int × List Event :=
  let op := "Auth.RegisterNewUser"
  match env.bcryptGenerate pass with
  | Except.error err =>
      (Except.error (GoErr.wrapped op err), [Event.generateCalled pass])
  | Except.ok passHash =>
      match env.saveUser email passHash with
      | Except.error err =>
          (Except.error (GoErr.wrapped op err),
            [Event.generateCalled pass, Event.saveUserCalled email passHash])
      | Except.ok id =>
          (Except.ok id,
            [Event.generateCalled pass, Event.saveUserCalled email passHash])

/-- `Auth.Login`: fetch the user, turn the `ErrUserNotFound` sentinel
(compared with `==`, i.e. by value identity) into `ErrInvalidCredentials`,
compare the password against the stored hash (mismatch is again
`ErrInvalidCredentials`), resolve the application, then issue the token;
every error is wrapped with the operation name. -/
def Login (a : Auth) (env : Env) (email password : String) (appID : Int) :
    Except GoErr String × List Event :=
  let op := "Auth.Login"
  match env.getUser email with
  | Except.error err =>
      if err = GoErr.errUserNotFound then
        (Except.error (GoErr.wrapped op GoErr.errInvalidCredentials),
          [Event.getUserCalled email])
      else
        (Except.error (GoErr.wrapped op err), [Event.getUserCalled email])
  | Except.ok user =>
      match env.bcryptCompare user.passHash password with
      | Except.error _ =>
          (Except.error (GoErr.wrapped op GoErr.errInvalidCredentials),
            [Event.getUserCalled email,
             Event.compareCalled user.passHash password])
      | Except.ok _ =>
          match env.getAppInfo appID with
          | Except.error err =>
              (Except.error (GoErr.wrapped op err),
                [Event.getUserCalled email,
                 Event.compareCalled user.passHash password,
                 Event.getAppCalled appID])
          | Except.ok app =>
              let r := NewToken env user app a.tokenTTL
              let tr := [Event.getUserCalled email,
                         Event.compareCalled user.passHash password,
                         Event.getAppCalled appID] ++ r.2
              match r.1 with
              | Except.error err => (Except.error (GoErr.wrapped op err), tr)
              | Except.ok token => (Except.ok token, tr)

/-! ### A concrete model of bcrypt

bcrypt is an external primitive (`golang.org/x/crypto/bcrypt`).  For
concrete witnesses we model it with the structure real bcrypt has: the
stored hash embeds the salt together with a digest of password and salt,
and verification re-derives the digest from the stored salt.  The salt is
an explicit argument: it is the random choice a real call makes. -/

/-- Digest of a password under a given salt (stands in for the bcrypt KDF). -/
def bcryptDigest (pass : String) (salt : Nat) : Nat :=
  pass.data.foldl (fun h c => h * 131 + c.toNat + 1) (salt + 1)

/-- Model of `bcrypt.GenerateFromPassword`: the produced hash stores the
salt and the digest. -/
def bcryptHashModel (salt : Nat) (pass : String) : List Nat :=
  [salt, bcryptDigest pass salt]

/-- Model of `bcrypt.CompareHashAndPassword`: read the salt out of the
stored hash, recompute the digest and compare; `.ok ()` on match, an error
on mismatch or malformed hash, as in Go. -/
def bcryptCompareModel (hash : List Nat) (pass : String) : Except GoErr Unit :=
  match hash with
  | [salt, d] =>
      if d = bcryptDigest pass salt then Except.ok ()
      else Except.error (GoErr.otherErr "crypto/bcrypt: mismatched hash and password")
  | _ => Except.error (GoErr.otherErr "crypto/bcrypt: hash too short")

/-! ### Concrete collaborators for witnesses (the scenario of spec section 8) -/

/-- The user of the scenario, registered with salt 5. -/
def demoUser : User :=
  { id := 1, email := "a@x.com", passHash := bcryptHashModel 5 "pw123456" }

def demoApp : App := { id := 1, secret := "app-secret" }

/-- Collaborator outcomes after the scenario's successful registration:
the directory holds `demoUser`, application 1 resolves, signing succeeds. -/
def demoEnv : Env where
  bcryptGenerate := fun pass => Except.ok (bcryptHashModel 5 pass)
  bcryptCompare := bcryptCompareModel
  saveUser := fun email _ =>
    if email = "a@x.com" then Except.error GoErr.errUserExists else Except.ok 2
  getUser := fun email =>
    if email = "a@x.com" then Except.ok demoUser
    else Except.error GoErr.errUserNotFound
  getAppInfo := fun appID =>
    if appID = 1 then Except.ok demoApp else Except.error GoErr.errAppNotFound
  sign := fun _ => Except.ok "signed.token.demo"
  now := 100

/-- Collaborator outcomes against an empty directory: saving succeeds. -/
def demoRegEnv : Env where
  bcryptGenerate := fun pass => Except.ok (bcryptHashModel 5 pass)
  bcryptCompare := bcryptCompareModel
  saveUser := fun _ _ => Except.ok 1
  getUser := fun _ => Except.error GoErr.errUserNotFound
  getAppInfo := fun _ => Except.error GoErr.errAppNotFound
  sign := fun _ => Except.ok "signed.token.demo"
  now := 100

/-- A user registered with empty email and empty password. -/
def emptyCredUser : User := { id := 7, email := "", passHash := bcryptHashModel 3 "" }

/-- Collaborator outcomes for the empty-credential scenario. -/
def emptyCredEnv : Env where
  bcryptGenerate := fun pass => Except.ok (bcryptHashModel 3 pass)
  bcryptCompare := bcryptCompareModel
  saveUser := fun _ _ => Except.ok 7
  getUser := fun email =>
    if email = "" then Except.ok emptyCredUser
    else Except.error GoErr.errUserNotFound
  getAppInfo := fun appID =>
    if appID = 1 then Except.ok demoApp else Except.error GoErr.errAppNotFound
  sign := fun _ => Except.ok "signed.token.empty"
  now := 50

/-! ### An in-memory User Directory, to run sequenced scenarios -/

/-- Directory state: records in insertion order, each email with its
identifier and stored hash. -/
structure DirState where
  users : List (String × Int × List Nat)
deriving DecidableEq

/-- Directory save: a uniqueness conflict for an already-present email,
otherwise the record is appended under the next identifier. -/
def dirSaveUser (st : DirState) (email : String) (hash : List Nat) :
    Except GoErr Int × DirState :=
  if st.users.any (fun u => u.1 = email) then
    (Except.error GoErr.errUserExists, st)
  else
    let uid : Int := Int.ofNat (st.users.length + 1)
    (Except.ok uid, ⟨st.users ++ [(email, uid, hash)]⟩)

/-- Directory lookup by email. -/
def dirGetUser (st : DirState) (email : String) : Except GoErr User :=
  match st.users.find? (fun u => u.1 = email) with
  | some u => Except.ok { id := u.2.1, email := u.1, passHash := u.2.2 }
  | none => Except.error GoErr.errUserNotFound

/-- The environment a request sees over directory state `st`, with the
modelled bcrypt drawing salt `salt`. -/
def envOf (st : DirState) (salt : Nat) : Env where
  bcryptGenerate := fun pass => Except.ok (bcryptHashModel salt pass)
  bcryptCompare := bcryptCompareModel
  saveUser := fun email hash => (dirSaveUser st email hash).1
  getUser := dirGetUser st
  getAppInfo := fun appID =>
    if appID = 1 then Except.ok demoApp else Except.error GoErr.errAppNotFound
  sign := fun _ => Except.ok "signed.token.demo"
  now := 100

/-- Run Register against directory state `st` and thread the state change
the directory performs for the save the request issues (none when hashing
fails, since no save is issued). -/
def registerOn (st : DirState) (salt : Nat) (email pass : String) :
    (Except GoErr Int × List Event) × DirState :=
  let r := RegisterNewUser (envOf st salt) email pass
  match (envOf st salt).bcryptGenerate pass with
  | Except.ok h => (r, (dirSaveUser st email h).2)
  | Except.error _ => (r, st)

/-! ### Shape lemmas: the finitely many outcomes of each operation -/

/-- Every Register trace begins with the bcrypt call, and a save event can
only carry the hash bcrypt produced. -/
lemma register_trace_cases (env : Env) (email pass : String) :
    (RegisterNewUser env email pass).2 = [Event.generateCalled pass] ∨
    ∃ h, env.bcryptGenerate pass = Except.ok h ∧
      (RegisterNewUser env email pass).2 =
        [Event.generateCalled pass, Event.saveUserCalled email h] := by
  rcases hg : env.bcryptGenerate pass with e | h
  · exact Or.inl (by simp [RegisterNewUser, hg])
  · refine Or.inr ⟨h, rfl, ?_⟩
    rcases hs : env.saveUser email h with e2 | uid <;>
      simp [RegisterNewUser, hg, hs]

/-- Every Login trace is one of four prefixes of the full call sequence. -/
lemma login_trace_cases (a : Auth) (env : Env) (email pw : String) (appID : Int) :
    (Login a env email pw appID).2 = [Event.getUserCalled email] ∨
    (∃ h, (Login a env email pw appID).2 =
      [Event.getUserCalled email, Event.compareCalled h pw]) ∨
    (∃ h, (Login a env email pw appID).2 =
      [Event.getUserCalled email, Event.compareCalled h pw,
       Event.getAppCalled appID]) ∨
    (∃ h c, (Login a env email pw appID).2 =
      [Event.getUserCalled email, Event.compareCalled h pw,
       Event.getAppCalled appID, Event.signCalled c]) := by
  rcases hgu : env.getUser email with e | user
  · by_cases he : e = GoErr.errUserNotFound <;>
      exact Or.inl (by simp [Login, hgu, he])
  · rcases hcm : env.bcryptCompare user.passHash pw with e2 | u
    · exact Or.inr (Or.inl ⟨user.passHash, by simp [Login, hgu, hcm]⟩)
    · rcases hap : env.getAppInfo appID with e3 | app
      · exact Or.inr (Or.inr (Or.inl ⟨user.passHash, by simp [Login, hgu, hcm, hap]⟩))
      · refine Or.inr (Or.inr (Or.inr
          ⟨user.passHash, mkClaims env user app a.tokenTTL, ?_⟩))
        rcases hsg : env.sign (mkClaims env user app a.tokenTTL) with e4 | tok <;>
          simp [Login, NewToken, hgu, hcm, hap, hsg]

/-- Any claims handed to the signer during Login carry issue time `env.now`
and expiry `env.now` plus the Authenticator's stored time-to-live. -/
lemma login_sign_claims (a : Auth) (env : Env) (email pw : String)
    (appID : Int) (c : Claims)
    (hc : Event.signCalled c ∈ (Login a env email pw appID).2) :
    c.iat = env.now ∧ c.exp = env.now + a.tokenTTL := by
  rcases hgu : env.getUser email with e | user
  · by_cases he : e = GoErr.errUserNotFound <;> simp [Login, hgu, he] at hc
  · rcases hcm : env.bcryptCompare user.passHash pw with e2 | u
    · simp [Login, hgu, hcm] at hc
    · rcases hap : env.getAppInfo appID with e3 | app
      · simp [Login, hgu, hcm, hap] at hc
      · rcases hsg : env.sign (mkClaims env user app a.tokenTTL) with e4 | tok <;>
          · simp [Login, NewToken, hgu, hcm, hap, hsg] at hc
            subst hc
            exact ⟨rfl, rfl⟩

/-- Every error Login returns is wrapped with the operation name. -/
lemma login_error_wrapped (a : Auth) (env : Env) (email pw : String)
    (appID : Int) (e : GoErr)
    (he : (Login a env email pw appID).1 = Except.error e) :
    ∃ cause, e = GoErr.wrapped "Auth.Login" cause := by
  rcases hgu : env.getUser email with e0 | user
  · by_cases hid : e0 = GoErr.errUserNotFound
    · simp [Login, hgu, hid] at he
      exact ⟨GoErr.errInvalidCredentials, he.symm⟩
    · simp [Login, hgu, hid] at he
      exact ⟨e0, he.symm⟩
  · rcases hcm : env.bcryptCompare user.passHash pw with e2 | u
    · simp [Login, hgu, hcm] at he
      exact ⟨GoErr.errInvalidCredentials, he.symm⟩
    · rcases hap : env.getAppInfo appID with e3 | app
      · simp [Login, hgu, hcm, hap] at he
        exact ⟨e3, he.symm⟩
      · rcases hsg : env.sign (mkClaims env user app a.tokenTTL) with e4 | tok
        · simp [Login, NewToken, hgu, hcm, hap, hsg] at he
          exact ⟨e4, he.symm⟩
        · simp [Login, NewToken, hgu, hcm, hap, hsg] at he

/-- Every error Register returns is wrapped with the operation name. -/
lemma register_error_wrapped (env : Env) (email pass : String) (e : GoErr)
    (he : (RegisterNewUser env email pass).1 = Except.error e) :
    ∃ cause, e = GoErr.wrapped "Auth.RegisterNewUser" cause := by
  rcases hg : env.bcryptGenerate pass with e1 | h
  · simp [RegisterNewUser, hg] at he
    exact ⟨e1, he.symm⟩
  · rcases hs : env.saveUser email h with e2 | uid
    · simp [RegisterNewUser, hg, hs] at he
      exact ⟨e2, he.symm⟩
    · simp [RegisterNewUser, hg, hs] at he

/-! ### The claims -/

/-- Claim C1: the error Login returns when the directory reports the user
as not found and the error it returns when the password comparison against
the stored hash fails are the very same value,
`Auth.Login` wrapping `ErrInvalidCredentials`, so an unregistered email and
a wrong password for a registered user are externally indistinguishable. -/
theorem login_unknown_user_and_wrong_password_same_error
    (a : Auth) (env1 env2 : Env) (email1 pw1 email2 pw2 : String)
    (appID1 appID2 : Int) (user : User) (e : GoErr)
    (h1 : env1.getUser email1 = Except.error GoErr.errUserNotFound)
    (h2 : env2.getUser email2 = Except.ok user)
    (h3 : env2.bcryptCompare user.passHash pw2 = Except.error e) :
    (Login a env1 email1 pw1 appID1).1 = (Login a env2 email2 pw2 appID2).1 ∧
    (Login a env1 email1 pw1 appID1).1 =
      Except.error (GoErr.wrapped "Auth.Login" GoErr.errInvalidCredentials) := by
  constructor <;> simp [Login, h1, h2, h3]

/-- Witness for C1 on the scenario collaborators: an unknown email and a
wrong password for the registered user produce the identical error. -/
theorem login_unknown_user_and_wrong_password_same_error_witness :
    (Login (New 3600) demoEnv "nouser@x.com" "pw123456" 1).1 =
      (Login (New 3600) demoEnv "a@x.com" "wrongpw" 1).1 ∧
    (Login (New 3600) demoEnv "nouser@x.com" "pw123456" 1).1 =
      Except.error (GoErr.wrapped "Auth.Login" GoErr.errInvalidCredentials) :=
  login_unknown_user_and_wrong_password_same_error (New 3600) demoEnv demoEnv
    "nouser@x.com" "pw123456" "a@x.com" "wrongpw" 1 1 demoUser
    (GoErr.otherErr "crypto/bcrypt: mismatched hash and password")
    rfl rfl rfl

/-- Claim C4: when the credentials verify but the Application Registry
fails to resolve the application identifier (not found or any other
failure), Login returns that failure wrapped as the operation's error and
the signer is never invoked, so no token is produced. -/
theorem login_app_resolution_failure_no_token
    (a : Auth) (env : Env) (email pw : String) (appID : Int)
    (user : User) (e : GoErr)
    (hget : env.getUser email = Except.ok user)
    (hcmp : env.bcryptCompare user.passHash pw = Except.ok ())
    (happ : env.getAppInfo appID = Except.error e) :
    (Login a env email pw appID).1 =
      Except.error (GoErr.wrapped "Auth.Login" e) ∧
    ∀ c : Claims, Event.signCalled c ∉ (Login a env email pw appID).2 := by
  constructor
  · simp [Login, hget, hcmp, happ]
  · intro c
    simp [Login, hget, hcmp, happ]

/-- Witness for C4: valid credentials with the unknown application 99
yield the wrapped `ErrAppNotFound` and a trace without a signing call. -/
theorem login_app_resolution_failure_no_token_witness :
    (Login (New 3600) demoEnv "a@x.com" "pw123456" 99).1 =
      Except.error (GoErr.wrapped "Auth.Login" GoErr.errAppNotFound) ∧
    ∀ c : Claims,
      Event.signCalled c ∉ (Login (New 3600) demoEnv "a@x.com" "pw123456" 99).2 :=
  login_app_resolution_failure_no_token (New 3600) demoEnv "a@x.com"
    "pw123456" 99 demoUser GoErr.errAppNotFound rfl rfl rfl

/-- Claim C5: when the hashing primitive fails, Register returns the
failure wrapped as the operation's error and never calls `SaveUser`: the
call fails with no write to the User Directory. -/
theorem register_hash_failure_no_write
    (env : Env) (email pass : String) (e : GoErr)
    (hgen : env.bcryptGenerate pass = Except.error e) :
    (RegisterNewUser env email pass).1 =
      Except.error (GoErr.wrapped "Auth.RegisterNewUser" e) ∧
    ∀ em h, Event.saveUserCalled em h ∉ (RegisterNewUser env email pass).2 := by
  constructor
  · simp [RegisterNewUser, hgen]
  · intro em h
    simp [RegisterNewUser, hgen]

/-- Witness for C5: with a bcrypt that reports resource exhaustion, the
wrapped hashing failure comes back and the trace holds no save event. -/
theorem register_hash_failure_no_write_witness :
    (RegisterNewUser
        { demoRegEnv with
            bcryptGenerate := fun _ =>
              Except.error (GoErr.otherErr "bcrypt: resource exhaustion") }
        "a@x.com" "pw123456").1 =
      Except.error (GoErr.wrapped "Auth.RegisterNewUser"
        (GoErr.otherErr "bcrypt: resource exhaustion")) ∧
    ∀ em h, Event.saveUserCalled em h ∉
      (RegisterNewUser
        { demoRegEnv with
            bcryptGenerate := fun _ =>
              Except.error (GoErr.otherErr "bcrypt: resource exhaustion") }
        "a@x.com" "pw123456").2 :=
  register_hash_failure_no_write
    { demoRegEnv with
        bcryptGenerate := fun _ =>
          Except.error (GoErr.otherErr "bcrypt: resource exhaustion") }
    "a@x.com" "pw123456" (GoErr.otherErr "bcrypt: resource exhaustion") rfl

/-- Claim C9: the user-not-found branch of Login tests value identity with
the `ErrUserNotFound` sentinel; a directory error that wraps the sentinel,
or merely shares its message, is a different value and is propagated
wrapped as a storage-kind failure instead of `ErrInvalidCredentials`. -/
theorem login_nonidentical_not_found_propagated
    (a : Auth) (env : Env) (email pw : String) (appID : Int) (e : GoErr)
    (hne : e ≠ GoErr.errUserNotFound)
    (hget : env.getUser email = Except.error e) :
    (Login a env email pw appID).1 =
      Except.error (GoErr.wrapped "Auth.Login" e) ∧
    (e ≠ GoErr.errInvalidCredentials →
      (Login a env email pw appID).1 ≠
        Except.error (GoErr.wrapped "Auth.Login" GoErr.errInvalidCredentials)) := by
  have hmain : (Login a env email pw appID).1 =
      Except.error (GoErr.wrapped "Auth.Login" e) := by
    simp [Login, hget, hne]
  refine ⟨hmain, fun hne2 hcontra => hne2 ?_⟩
  rw [hmain] at hcontra
  simpa using hcontra

/-- Witness for C9: a directory returning the sentinel wrapped by its
driver makes Login propagate the storage failure, not InvalidCredentials. -/
theorem login_nonidentical_not_found_propagated_witness :
    (Login (New 3600)
        { demoRegEnv with
            getUser := fun _ => Except.error
              (GoErr.wrapped "sqlite.GetUser" GoErr.errUserNotFound) }
        "a@x.com" "pw123456" 1).1 =
      Except.error (GoErr.wrapped "Auth.Login"
        (GoErr.wrapped "sqlite.GetUser" GoErr.errUserNotFound)) ∧
    (GoErr.wrapped "sqlite.GetUser" GoErr.errUserNotFound ≠
        GoErr.errInvalidCredentials →
      (Login (New 3600)
        { demoRegEnv with
            getUser := fun _ => Except.error
              (GoErr.wrapped "sqlite.GetUser" GoErr.errUserNotFound) }
        "a@x.com" "pw123456" 1).1 ≠
        Except.error (GoErr.wrapped "Auth.Login" GoErr.errInvalidCredentials)) :=
  login_nonidentical_not_found_propagated (New 3600)
    { demoRegEnv with
        getUser := fun _ => Except.error
          (GoErr.wrapped "sqlite.GetUser" GoErr.errUserNotFound) }
    "a@x.com" "pw123456" 1
    (GoErr.wrapped "sqlite.GetUser" GoErr.errUserNotFound)
    (by decide) rfl

/-- Claim C2: when Register succeeds with identifier `uid` and the
directory then returns the saved record for the same email, Login with the
same password and a resolvable application succeeds, and the claims it has
signed — the identity embedded in the returned token — carry `uid`. -/
theorem register_then_login_roundtrip
    (a : Auth) (env1 env2 : Env) (email pass : String) (appID : Int)
    (uid : Int) (h : List Nat) (app : App) (tok : String)
    (hgen : env1.bcryptGenerate pass = Except.ok h)
    (hsave : env1.saveUser email h = Except.ok uid)
    (hget : env2.getUser email =
      Except.ok { id := uid, email := email, passHash := h })
    (hcmp : env2.bcryptCompare h pass = Except.ok ())
    (happ : env2.getAppInfo appID = Except.ok app)
    (hsign : env2.sign
        (mkClaims env2 { id := uid, email := email, passHash := h } app a.tokenTTL) =
      Except.ok tok) :
    (RegisterNewUser env1 email pass).1 = Except.ok uid ∧
    (Login a env2 email pass appID).1 = Except.ok tok ∧
    ∃ c : Claims, Event.signCalled c ∈ (Login a env2 email pass appID).2 ∧
      c.uid = uid ∧ env2.sign c = Except.ok tok := by
  refine ⟨by simp [RegisterNewUser, hgen, hsave], ?_, ?_⟩
  · simp [Login, NewToken, hget, hcmp, happ, hsign]
  · refine ⟨mkClaims env2 { id := uid, email := email, passHash := h } app a.tokenTTL,
      ?_, rfl, hsign⟩
    simp [Login, NewToken, hget, hcmp, happ, hsign]

/-- Witness for C2: the scenario registration followed by the scenario
login returns identifier 1 and a token whose signed claims carry uid 1. -/
theorem register_then_login_roundtrip_witness :
    (RegisterNewUser demoRegEnv "a@x.com" "pw123456").1 = Except.ok 1 ∧
    (Login (New 3600) demoEnv "a@x.com" "pw123456" 1).1 =
      Except.ok "signed.token.demo" ∧
    ∃ c : Claims,
      Event.signCalled c ∈ (Login (New 3600) demoEnv "a@x.com" "pw123456" 1).2 ∧
      c.uid = 1 ∧ demoEnv.sign c = Except.ok "signed.token.demo" :=
  register_then_login_roundtrip (New 3600) demoRegEnv demoEnv "a@x.com"
    "pw123456" 1 1 (bcryptHashModel 5 "pw123456") demoApp "signed.token.demo"
    rfl rfl rfl rfl rfl rfl

/-- Claim C3: any claims Login hands to the signer carry issue time equal
to the clock reading and expiry equal to issue time plus the time-to-live
stored by the constructor `New`; Login takes no per-request time-to-live. -/
theorem login_token_expiry_issue_plus_constructed_ttl
    (ttl : Nat) (env : Env) (email pw : String) (appID : Int) (c : Claims)
    (hc : Event.signCalled c ∈ (Login (New ttl) env email pw appID).2) :
    c.iat = env.now ∧ c.exp = env.now + ttl ∧ (New ttl).tokenTTL = ttl :=
  ⟨(login_sign_claims (New ttl) env email pw appID c hc).1,
   (login_sign_claims (New ttl) env email pw appID c hc).2, rfl⟩

/-- Witness for C3: the scenario login, run at clock 100 with TTL 3600,
signs claims with issue time 100 and expiry 3700. -/
theorem login_token_expiry_issue_plus_constructed_ttl_witness :
    { uid := 1, appID := 1, iat := 100, exp := 3700 : Claims }.iat = demoEnv.now ∧
    { uid := 1, appID := 1, iat := 100, exp := 3700 : Claims }.exp =
      demoEnv.now + 3600 ∧
    (New 3600).tokenTTL = 3600 :=
  login_token_expiry_issue_plus_constructed_ttl 3600 demoEnv "a@x.com"
    "pw123456" 1 { uid := 1, appID := 1, iat := 100, exp := 3700 }
    (by simp [Login, NewToken, mkClaims, New, demoEnv, demoUser, demoApp, bcryptCompareModel, bcryptHashModel])

/-- Claim C6: a directory uniqueness conflict comes back from Register as
the `ErrUserExists` sentinel wrapped — still matchable as that kind, not
translated — and, run against the in-memory directory, a second Register
for the same email fails with it while the first user stays retrievable. -/
theorem register_conflict_propagates_user_already_exists
    (env : Env) (email pass : String) (h : List Nat)
    (hgen : env.bcryptGenerate pass = Except.ok h)
    (hsave : env.saveUser email h = Except.error GoErr.errUserExists) :
    (RegisterNewUser env email pass).1 =
      Except.error (GoErr.wrapped "Auth.RegisterNewUser" GoErr.errUserExists) ∧
    errIs (GoErr.wrapped "Auth.RegisterNewUser" GoErr.errUserExists)
      GoErr.errUserExists = true ∧
    (registerOn ⟨[]⟩ 5 "a@x.com" "pw123456").1.1 = Except.ok 1 ∧
    (registerOn (registerOn ⟨[]⟩ 5 "a@x.com" "pw123456").2
        7 "a@x.com" "other").1.1 =
      Except.error (GoErr.wrapped "Auth.RegisterNewUser" GoErr.errUserExists) ∧
    dirGetUser (registerOn (registerOn ⟨[]⟩ 5 "a@x.com" "pw123456").2
        7 "a@x.com" "other").2 "a@x.com" =
      Except.ok { id := 1, email := "a@x.com",
                  passHash := bcryptHashModel 5 "pw123456" } := by
  exact ⟨by simp [RegisterNewUser, hgen, hsave], rfl, rfl, rfl, rfl⟩

/-- Witness for C6: the second registration of `a@x.com` on the in-memory
directory hits the conflict and returns the wrapped sentinel. -/
theorem register_conflict_propagates_user_already_exists_witness :
    (RegisterNewUser
        (envOf (registerOn ⟨[]⟩ 5 "a@x.com" "pw123456").2 7)
        "a@x.com" "other").1 =
      Except.error (GoErr.wrapped "Auth.RegisterNewUser" GoErr.errUserExists) ∧
    errIs (GoErr.wrapped "Auth.RegisterNewUser" GoErr.errUserExists)
      GoErr.errUserExists = true ∧
    (registerOn ⟨[]⟩ 5 "a@x.com" "pw123456").1.1 = Except.ok 1 ∧
    (registerOn (registerOn ⟨[]⟩ 5 "a@x.com" "pw123456").2
        7 "a@x.com" "other").1.1 =
      Except.error (GoErr.wrapped "Auth.RegisterNewUser" GoErr.errUserExists) ∧
    dirGetUser (registerOn (registerOn ⟨[]⟩ 5 "a@x.com" "pw123456").2
        7 "a@x.com" "other").2 "a@x.com" =
      Except.ok { id := 1, email := "a@x.com",
                  passHash := bcryptHashModel 5 "pw123456" } :=
  register_conflict_propagates_user_already_exists
    (envOf (registerOn ⟨[]⟩ 5 "a@x.com" "pw123456").2 7)
    "a@x.com" "other" (bcryptHashModel 7 "other") rfl rfl

/-- Claim C7: two Register calls for the same password whose bcrypt
invocations draw different salts store different hashes — both saves are in
the traces with exactly the hash bcrypt produced — and each stored hash
verifies against the plaintext under the modelled bcrypt comparison. -/
theorem register_same_password_distinct_hashes_both_verify
    (salt1 salt2 : Nat) (pass email1 email2 : String)
    (env1 env2 : Env) (uid1 uid2 : Int)
    (hne : salt1 ≠ salt2)
    (hgen1 : env1.bcryptGenerate pass = Except.ok (bcryptHashModel salt1 pass))
    (hgen2 : env2.bcryptGenerate pass = Except.ok (bcryptHashModel salt2 pass))
    (hsave1 : env1.saveUser email1 (bcryptHashModel salt1 pass) = Except.ok uid1)
    (hsave2 : env2.saveUser email2 (bcryptHashModel salt2 pass) = Except.ok uid2) :
    Event.saveUserCalled email1 (bcryptHashModel salt1 pass) ∈
      (RegisterNewUser env1 email1 pass).2 ∧
    Event.saveUserCalled email2 (bcryptHashModel salt2 pass) ∈
      (RegisterNewUser env2 email2 pass).2 ∧
    bcryptHashModel salt1 pass ≠ bcryptHashModel salt2 pass ∧
    bcryptCompareModel (bcryptHashModel salt1 pass) pass = Except.ok () ∧
    bcryptCompareModel (bcryptHashModel salt2 pass) pass = Except.ok () := by
  refine ⟨?_, ?_, ?_, ?_, ?_⟩
  · simp [RegisterNewUser, hgen1, hsave1]
  · simp [RegisterNewUser, hgen2, hsave2]
  · simp [bcryptHashModel, hne]
  · simp [bcryptCompareModel, bcryptHashModel]
  · simp [bcryptCompareModel, bcryptHashModel]

/-- Witness for C7: registering `pw123456` twice with salts 5 and 7 stores
two different hashes and both verify. -/
theorem register_same_password_distinct_hashes_both_verify_witness :
    Event.saveUserCalled "a@x.com" (bcryptHashModel 5 "pw123456") ∈
      (RegisterNewUser demoRegEnv "a@x.com" "pw123456").2 ∧
    Event.saveUserCalled "b@x.com" (bcryptHashModel 7 "pw123456") ∈
      (RegisterNewUser
        { demoRegEnv with
            bcryptGenerate := fun p => Except.ok (bcryptHashModel 7 p) }
        "b@x.com" "pw123456").2 ∧
    bcryptHashModel 5 "pw123456" ≠ bcryptHashModel 7 "pw123456" ∧
    bcryptCompareModel (bcryptHashModel 5 "pw123456") "pw123456" =
      Except.ok () ∧
    bcryptCompareModel (bcryptHashModel 7 "pw123456") "pw123456" =
      Except.ok () :=
  register_same_password_distinct_hashes_both_verify 5 7 "pw123456"
    "a@x.com" "b@x.com" demoRegEnv
    { demoRegEnv with
        bcryptGenerate := fun p => Except.ok (bcryptHashModel 7 p) }
    1 1 (by decide) rfl rfl rfl rfl

/-! ### Counting external calls in a trace -/

def isGenerateCall : Event → Bool
  | Event.generateCalled _ => true
  | _ => false

def isSaveUserCall : Event → Bool
  | Event.saveUserCalled _ _ => true
  | _ => false

def isGetUserCall : Event → Bool
  | Event.getUserCalled _ => true
  | _ => false

def isCompareCall : Event → Bool
  | Event.compareCalled _ _ => true
  | _ => false

def isGetAppCall : Event → Bool
  | Event.getAppCalled _ => true
  | _ => false

def isSignCall : Event → Bool
  | Event.signCalled _ => true
  | _ => false

/-- Claim C8: every error Register or Login returns is wrapped with the
originating operation's name, and no failure is retried internally: each
external call occurs at most once in any request's trace. -/
theorem errors_wrapped_and_no_internal_retries
    (a : Auth) (env : Env) (email pass lemail lpw : String) (appID : Int) :
    (∀ e, (RegisterNewUser env email pass).1 = Except.error e →
      ∃ cause, e = GoErr.wrapped "Auth.RegisterNewUser" cause) ∧
    (∀ e, (Login a env lemail lpw appID).1 = Except.error e →
      ∃ cause, e = GoErr.wrapped "Auth.Login" cause) ∧
    (RegisterNewUser env email pass).2.countP isGenerateCall ≤ 1 ∧
    (RegisterNewUser env email pass).2.countP isSaveUserCall ≤ 1 ∧
    (Login a env lemail lpw appID).2.countP isGetUserCall ≤ 1 ∧
    (Login a env lemail lpw appID).2.countP isCompareCall ≤ 1 ∧
    (Login a env lemail lpw appID).2.countP isGetAppCall ≤ 1 ∧
    (Login a env lemail lpw appID).2.countP isSignCall ≤ 1 := by
  refine ⟨register_error_wrapped env email pass,
    login_error_wrapped a env lemail lpw appID, ?_, ?_, ?_, ?_, ?_, ?_⟩ <;>
  · first
    | (rcases register_trace_cases env email pass with h | ⟨hh, _, h⟩ <;>
        rw [h] <;>
        simp [List.countP_cons, List.countP_nil,
          isGenerateCall, isSaveUserCall])
    | (rcases login_trace_cases a env lemail lpw appID
          with h | ⟨hh, h⟩ | ⟨hh, h⟩ | ⟨hh, hc, h⟩ <;>
        rw [h] <;>
        simp [List.countP_cons, List.countP_nil,
          isGetUserCall, isCompareCall, isGetAppCall, isSignCall])

/-- Witness for C8: the scenario login against an unknown email returns an
error wrapped with the operation name, and its trace holds one directory
lookup. -/
theorem errors_wrapped_and_no_internal_retries_witness :
    (∃ cause, GoErr.wrapped "Auth.Login" GoErr.errInvalidCredentials =
      GoErr.wrapped "Auth.Login" cause) ∧
    (Login (New 3600) demoEnv "nouser@x.com" "pw123456" 1).2.countP
      isGetUserCall ≤ 1 :=
  ⟨(errors_wrapped_and_no_internal_retries (New 3600) demoEnv "a@x.com"
      "pw123456" "nouser@x.com" "pw123456" 1).2.1
      (GoErr.wrapped "Auth.Login" GoErr.errInvalidCredentials) rfl,
   (errors_wrapped_and_no_internal_retries (New 3600) demoEnv "a@x.com"
      "pw123456" "nouser@x.com" "pw123456" 1).2.2.2.2.1⟩

/-- Claim C10: neither operation validates its inputs: with empty email
and empty password Register still makes the bcrypt call first and Login
still makes the directory lookup first, `GoErr` carries no
input-validation kind, and an empty-credential registration succeeds and
later verifies through Login. -/
theorem no_input_validation_empty_credentials
    (a : Auth) (env : Env) :
    (RegisterNewUser env "" "").2.head? = some (Event.generateCalled "") ∧
    (Login a env "" "" 1).2.head? = some (Event.getUserCalled "") ∧
    (RegisterNewUser emptyCredEnv "" "").1 = Except.ok 7 ∧
    (Login (New 60) emptyCredEnv "" "" 1).1 =
      Except.ok "signed.token.empty" := by
  refine ⟨?_, ?_, rfl, rfl⟩
  · rcases register_trace_cases env "" "" with h | ⟨hh, _, h⟩ <;> rw [h] <;> rfl
  · rcases login_trace_cases a env "" "" 1
      with h | ⟨hh, h⟩ | ⟨hh, h⟩ | ⟨hh, hc, h⟩ <;> rw [h] <;> rfl

end AuthGrpc
